import Mathlib

/-!
Verification of the PortalFinder account-portal scanner (`portalfinder.go`).

The source contains two program variants separated by a document marker: the
first (regex-based classifier, lines 1-257) and the second (substring-based
classifier, lines 258-487).  Bodies are modelled as `List Char`, one entry per
byte of the Go `[]byte` body (all inputs considered here are ASCII, where Go
bytes and characters coincide and `len` is the list length).  HTTP probing is
modelled by an oracle `String → Option ProbeResponse` giving, for each
configured path suffix, either `none` (transport error from `httpClient.Get`)
or the response.  The unsynchronized parts of `main` are modelled by an
explicit interleaving machine over atomic actions.
-/

namespace PortalFinder

/-- Path suffixes probed per candidate, from `createAccountPaths`
(first variant, lines 17-19). -/
def createAccountPaths : List String :=
  ["login", "register", "signup", "signin", "create-account", "log-in",
   "sign-in", "sign-up", "authentication", "forgot-password", "reset-password"]

/-- Keywords searched in bodies, from `createAccountKeywords`
(first variant, lines 21-23). -/
def createAccountKeywords : List String :=
  ["login", "register", "signup", "signin", "create account", "log in",
   "sign in", "sign up", "authentication", "forgot password", "reset password"]

/-- Embeds Go `strings.HasPrefix`: `pat` is a prefix of `cs`. -/
def startsWithL : List Char → List Char → Bool
  | [], _ => true
  | _ :: _, [] => false
  | p :: ps, c :: cs => p == c && startsWithL ps cs

/-- Embeds Go `strings.Contains body pat`: `pat` occurs as a contiguous
substring of `body` (true for the empty pattern). -/
def containsSub : List Char → List Char → Bool
  | [], pat => startsWithL pat []
  | c :: rest, pat => startsWithL pat (c :: rest) || containsSub rest pat

/-- Embeds Go `strings.ToLower` on the ASCII bodies considered here. -/
def toLowerL (l : List Char) : List Char := l.map Char.toLower

/-- Embeds `findMatchingKeyword` (first variant, lines 210-217): the first
configured keyword that is a substring of the lowercased body, else `""`. -/
def findMatchingKeyword (body : List Char) : String :=
  (createAccountKeywords.find? fun kw => containsSub (toLowerL body) kw.toList).getD ""

/-- Splits `cs` at the first occurrence of the character `stop`: returns the
run of characters before it and the remainder after it, or `none` when `stop`
does not occur.  This is the (deterministic) effect of the regex fragment
`[^x]*x` for a single character `x`: the greedy class run must end exactly at
the first occurrence of `x`. -/
def splitUntil (stop : Char) : List Char → Option (List Char × List Char)
  | [] => none
  | c :: cs =>
    if c == stop then some ([], cs)
    else
      match splitUntil stop cs with
      | some (run, rest) => some (c :: run, rest)
      | none => none

/-- Effect of the lazy regex fragment `(.*?)pat` for a literal `pat`: the
shortest run of non-newline characters followed by `pat` (Go's `.` does not
match a newline).  Returns the captured run and the remainder after `pat`. -/
def lazyDotUntil (pat : List Char) : List Char → Option (List Char × List Char)
  | [] => if startsWithL pat [] then some ([], []) else none
  | c :: rest =>
    if startsWithL pat (c :: rest) then some ([], (c :: rest).drop pat.length)
    else if c == '\n' then none
    else
      match lazyDotUntil pat rest with
      | some (t, r) => some (c :: t, r)
      | none => none

/-- A match of the regex `<form[^>]*>` starting at the head of `cs`: the
literal `<form` followed by a (possibly empty) run of non-`>` characters and
a closing `>`; such a match exists here exactly when some `>` occurs after
the literal. -/
def formAt (cs : List Char) : Bool :=
  startsWithL "<form".toList cs && (splitUntil '>' (cs.drop 5)).isSome

/-- Embeds `containsForm` of the first variant (lines 236-240):
`regexp.MustCompile("<form[^>]*>").MatchString(body)`, i.e. the pattern
matches at some position of the body. -/
def containsForm : List Char → Bool
  | [] => false
  | c :: rest => formAt (c :: rest) || containsForm rest

/-- Embeds `containsForm` of the second variant (lines 460-462):
`strings.Contains(body, "<form")`. -/
def containsFormV2 (body : List Char) : Bool :=
  containsSub body "<form".toList

/-- Suffixes of `cs` reachable by letting the greedy class `[^>]*` consume 0,
1, 2, ... characters: every suffix up to and including the one that starts at
the first `>` (the class cannot consume past it).  Listed in increasing
consumption order. -/
def nonGtSuffixes : List Char → List (List Char)
  | [] => [[]]
  | c :: cs => (c :: cs) :: (if c == '>' then [] else nonGtSuffixes cs)

/-- Continuation of the anchor alternative after its `href="` literal:
parses `([^"]*)"` (the href capture), then `[^>]*>`, then the lazy text
capture `(.*?)</a>`.  Each of these fragments is deterministic (see
`splitUntil`/`lazyDotUntil`); a failure here sends the backtracking search of
`anchorMatch` to the next candidate position of the first `[^>]*`. -/
def anchorAfterHref (cs : List Char) : Option (List Char × List Char × List Char) :=
  match splitUntil '"' cs with
  | none => none
  | some (href, cs1) =>
    match splitUntil '>' cs1 with
    | none => none
    | some (_, cs2) =>
      match lazyDotUntil "</a>".toList cs2 with
      | none => none
      | some (text, cs3) => some (href, text, cs3)

/-- A match, starting at the head of `cs`, of the first alternative of the
link pattern of `containsCreateAccountLinks` (first variant, line 220):
`<a[^>]*href="([^"]*)"[^>]*>(.*?)</a>`.  Returns the two captures (href,
anchor text) and the remainder after the match.  Go's regexp engine gives the
match a backtracking search would find first, so the greedy `[^>]*` tries the
longest consumption first: the candidate suffixes are tried deepest first. -/
def anchorMatch (cs : List Char) : Option (List Char × List Char × List Char) :=
  if startsWithL "<a".toList cs then
    (nonGtSuffixes (cs.drop 2)).reverse.findSome? fun s =>
      if startsWithL "href=\"".toList s then anchorAfterHref (s.drop 6) else none
  else none

/-- A match, starting at the head of `cs`, of the second alternative of the
link pattern: `<button[^>]*>(.*?)</button>`.  Returns the text capture and
the remainder after the match. -/
def buttonMatch (cs : List Char) : Option (List Char × List Char) :=
  if startsWithL "<button".toList cs then
    match splitUntil '>' (cs.drop 7) with
    | none => none
    | some (_, cs1) =>
      match lazyDotUntil "</button>".toList cs1 with
      | none => none
      | some (text, rest) => some (text, rest)
  else none

/-- One submatch record of `re.FindAllStringSubmatch(body, -1)` for the link
pattern.  The record always has four entries (full match plus three capture
groups); unmatched groups are the empty string.  `g1` is the anchor href
capture, `g2` the anchor text capture, `g3` the button text capture. -/
structure LinkMatch where
  g1 : List Char
  g2 : List Char
  g3 : List Char
deriving DecidableEq, Repr

/-- Embeds `re.FindAllStringSubmatch(body, -1)` for the link pattern: scan
left to right; at each position try the anchor alternative first, then the
button alternative (leftmost match wins, alternatives in pattern order);
record the capture groups and continue after the match (matches do not
overlap).  The fuel is initialized to the body length, which suffices since
every step consumes at least one character. -/
def findAllLinkMatches : Nat → List Char → List LinkMatch
  | 0, _ => []
  | _ + 1, [] => []
  | fuel + 1, c :: rest =>
    match anchorMatch (c :: rest) with
    | some (href, text, rest2) => ⟨href, text, []⟩ :: findAllLinkMatches fuel rest2
    | none =>
      match buttonMatch (c :: rest) with
      | some (text, rest2) => ⟨[], [], text⟩ :: findAllLinkMatches fuel rest2
      | none => findAllLinkMatches fuel rest

/-- Embeds `containsCreateAccountLinks` of the first variant (lines 219-234).
The loop tests `len(match) > 1 && findMatchingKeyword(match[1]) != ""` and
`len(match) > 2 && findMatchingKeyword(match[2]) != ""`; a submatch record
always has length 4, so both length guards always hold and the loop inspects
exactly groups 1 and 2 (the button text capture, group 3, is never read). -/
def containsCreateAccountLinks (body : List Char) : Bool :=
  (findAllLinkMatches body.length body).any fun m =>
    (findMatchingKeyword m.g1 != "") || (findMatchingKeyword m.g2 != "")

/-- Embeds `fmt.Sprint(statusCode)` having prefix `"3"` (line 166): the first
digit of the decimal representation is `3`. -/
def statusStartsWith3 (code : Nat) : Bool :=
  startsWithL ['3'] (Nat.repr code).toList

/-- The `continue` guard of line 166: the status is skipped unless it is
exactly `http.StatusOK` (200) or its decimal text starts with `"3"`. -/
def statusRejected (code : Nat) : Bool :=
  code != 200 && !(statusStartsWith3 code)

/-- One HTTP response as seen by `checkSubdomain`: status code, the
`Location` header value (`""` when the header is absent, as returned by Go's
`Header.Get`), and the result of `ioutil.ReadAll` on the body (`none` models
a body-read error, line 170-173). -/
structure ProbeResponse where
  statusCode : Nat
  location : String
  body : Option (List Char)
deriving DecidableEq, Repr

/-- The local variables of `checkSubdomain` (first variant, lines 148-152). -/
structure ScanState where
  accountPortalFound : Bool
  redirectURL : String
  detectionMethod : String
  matchedKeyword : String
  hasForm : Bool
deriving DecidableEq, Repr

/-- Initial values of the `checkSubdomain` locals (lines 148-152). -/
def initState : ScanState :=
  { accountPortalFound := false, redirectURL := "", detectionMethod := "",
    matchedKeyword := "", hasForm := false }

/-- The classification of an accepted, size-checked body (first variant,
lines 178-190).  Note that the Go statement
`if matchedKeyword = findMatchingKeyword(string(body)); ...` assigns
`matchedKeyword` before testing the condition, so the assignment persists
even when rule A fails.  Returns the updated locals and whether the loop
breaks (a match was found). -/
def classifyBody (st : ScanState) (body : List Char) : ScanState × Bool :=
  let kw := findMatchingKeyword body
  let st2 := { st with matchedKeyword := kw }
  if kw != "" && containsForm body then
    ({ st2 with accountPortalFound := true,
                detectionMethod := "Keywords in body with form", hasForm := true }, true)
  else if containsCreateAccountLinks body && containsForm body then
    ({ st2 with accountPortalFound := true,
                detectionMethod := "Links or buttons in body with form", hasForm := true }, true)
  else (st2, false)

/-- One iteration of the path loop of `checkSubdomain` (first variant, lines
154-191), for the path `path` under the probe oracle `r` (`r path = none`
models a transport error of `httpClient.Get`).  Returns the updated locals
and whether the loop breaks. -/
def processPath (r : String → Option ProbeResponse) (st : ScanState) (path : String) :
    ScanState × Bool :=
  match r path with
  | none => (st, false)
  | some resp =>
    let st1 := if 300 ≤ resp.statusCode ∧ resp.statusCode < 400
      then { st with redirectURL := resp.location } else st
    if statusRejected resp.statusCode then (st1, false)
    else
      match resp.body with
      | none => (st1, false)
      | some body =>
        if 10000 < body.length then (st1, false)
        else classifyBody st1 body

/-- Whether the loop iteration for `path` breaks (finds a match); read off
from lines 154-191, it depends only on the response, not on the locals. -/
def pathBreak (r : String → Option ProbeResponse) (path : String) : Bool :=
  match r path with
  | none => false
  | some resp =>
    if statusRejected resp.statusCode then false
    else
      match resp.body with
      | none => false
      | some body =>
        if 10000 < body.length then false
        else (findMatchingKeyword body != "" && containsForm body) ||
             (containsCreateAccountLinks body && containsForm body)

/-- The path loop of `checkSubdomain` over a path list, instrumented with the
trace of paths for which an HTTP request was issued (in order).  The loop
body is `processPath`; a break ends the loop, otherwise the next path is
processed with the updated locals. -/
def scanPathsT (r : String → Option ProbeResponse) :
    List String → ScanState → ScanState × List String
  | [], st => (st, [])
  | p :: ps, st =>
    let res := processPath r st p
    if res.2 then (res.1, [p])
    else
      let r2 := scanPathsT r ps res.1
      (r2.1, p :: r2.2)

/-- The full path loop of `checkSubdomain` on the configured path list:
final locals and the trace of probed paths. -/
def scanResult (r : String → Option ProbeResponse) : ScanState × List String :=
  scanPathsT r createAccountPaths initState

/-- Embeds the return value of `checkSubdomain` (lines 195-207): `true` iff
`accountPortalFound && hasForm` after the loop. -/
def checkSubdomain (r : String → Option ProbeResponse) : Bool :=
  (scanResult r).1.accountPortalFound && (scanResult r).1.hasForm

/-- Atomic actions of one orchestrator goroutine (first variant `main`,
lines 64-76; `writeSink` is the output-file write of the second variant,
lines 432-438).  The Go slice append `validSubdomains = append(...)` is not
atomic: it reads the current slice and then writes the extended one, so it is
two actions (`readOutcome`, `writeOutcome`).  Likewise the statement
`progressChan <- progress` first reads the shared `progress` variable
(unsynchronized) and then delivers the read value (`readProgress`, `send`). -/
inductive Action where
  | readOutcome
  | writeOutcome
  | lock
  | incProgress
  | unlock
  | readProgress
  | send
  | writeSink
deriving DecidableEq, Repr

/-- The goroutine body of the first variant's `main` (lines 64-76) for a
candidate whose `checkSubdomain` returned true: the unguarded slice append,
then the mutex-guarded counter increment, then the unguarded read-and-send of
the progress counter. -/
def workerProgMatched : List Action :=
  [.readOutcome, .writeOutcome, .lock, .incProgress, .unlock, .readProgress, .send]

/-- The goroutine body for a candidate whose `checkSubdomain` returned
false: no append, only the guarded increment and the read-and-send. -/
def workerProgUnmatched : List Action :=
  [.lock, .incProgress, .unlock, .readProgress, .send]

/-- The goroutine body of the second variant's `main` (lines 325-337) for a
matched candidate: `checkSubdomain` writes the candidate to the output file
before returning (lines 432-438, unguarded), then the guarded increment and
the read-and-send. -/
def workerProgMatchedV2 : List Action :=
  [.writeSink, .lock, .incProgress, .unlock, .readProgress, .send]

/-- Whether an action mutates the shared resources named by the spec: the
outcome set (`validSubdomains`), the progress counter, or the output sink. -/
def mutatesShared : Action → Bool
  | .writeOutcome => true
  | .incProgress => true
  | .writeSink => true
  | _ => false

/-- Annotates each action of a program with whether the mutex is held when
the action executes, starting from the given held flag. -/
def annotateGuard : List Action → Bool → List (Action × Bool)
  | [], _ => []
  | a :: rest, held =>
    (a, held) :: annotateGuard rest
      (match a with
       | .lock => true
       | .unlock => false
       | _ => held)

/-- Whether every shared-state mutation of the program executes while the
mutex is held. -/
def mutationsGuarded (prog : List Action) : Bool :=
  (annotateGuard prog false).all fun ab => !(mutatesShared ab.1) || ab.2

/-- Global state of the interleaving machine for the first variant's `main`:
per-worker program counters, per-worker value read from `progress` for the
send, per-worker snapshot of the slice read by the append, the shared
`validSubdomains` outcome (as worker indices), the shared `progress` counter,
the mutex holder, and the sequence of progress counts received by the
reporter goroutine (`animatedIndicator`). -/
structure SysState where
  pcs : List Nat
  regs : List Nat
  snaps : List (List Nat)
  outcome : List Nat
  progress : Nat
  mutex : Option Nat
  delivered : List Nat
deriving DecidableEq, Repr

/-- Initial machine state for `n` workers (main lines 51-59). -/
def initSys (n : Nat) : SysState :=
  { pcs := List.replicate n 0, regs := List.replicate n 0,
    snaps := List.replicate n [], outcome := [], progress := 0,
    mutex := none, delivered := [] }

/-- The program of worker `i`, by whether its candidate matched. -/
def progOf (matched : List Bool) (i : Nat) : List Action :=
  if matched.getD i false then workerProgMatched else workerProgUnmatched

/-- One scheduled step of worker `i`: execute its next action if any.  A
`lock` while the mutex is held by another worker blocks (the state is
unchanged); every other action executes atomically as in the code: the append
writes snapshot ++ [i] (lost-update semantics of the unsynchronized Go slice
append), the increment adds one to the shared counter, `readProgress` reads
the current shared counter, and `send` delivers the read value to the
reporter (appending it to the received sequence). -/
def step (matched : List Bool) (st : SysState) (i : Nat) : SysState :=
  match (progOf matched i).get? (st.pcs.getD i 0) with
  | none => st
  | some a =>
    let adv := { st with pcs := st.pcs.set i (st.pcs.getD i 0 + 1) }
    match a with
    | .readOutcome => { adv with snaps := st.snaps.set i st.outcome }
    | .writeOutcome => { adv with outcome := st.snaps.getD i [] ++ [i] }
    | .lock =>
      match st.mutex with
      | none => { adv with mutex := some i }
      | some _ => st
    | .incProgress => { adv with progress := st.progress + 1 }
    | .unlock => { adv with mutex := none }
    | .readProgress => { adv with regs := st.regs.set i st.progress }
    | .send => { adv with delivered := st.delivered ++ [st.regs.getD i 0] }
    | .writeSink => adv

/-- Run the machine under a schedule (a sequence of worker indices). -/
def run (matched : List Bool) (sched : List Nat) : SysState :=
  sched.foldl (step matched) (initSys matched.length)

/-- A schedule for two matched candidates in which both goroutines read the
empty `validSubdomains` slice before either writes its appended copy back,
then both finish their remaining actions. -/
def schedLostAppend : List Nat := [0, 1, 0, 1, 0, 0, 0, 0, 0, 1, 1, 1, 1, 1]

/-- A schedule for two unmatched candidates in which worker 0 increments the
counter and reads 1, is preempted before its channel send, worker 1 then
increments, reads 2 and sends, and finally worker 0 sends its stale 1. -/
def schedLateSend : List Nat := [0, 0, 0, 0, 1, 1, 1, 1, 1, 0]

/-- Response fixture: status 200 with a body containing a keyword and a form. -/
def respLogin : ProbeResponse :=
  { statusCode := 200, location := "", body := some "<form>login</form>".toList }

/-- Oracle fixture: the first configured path answers `respLogin`, every
other path errors. -/
def oracleLogin : String → Option ProbeResponse :=
  fun p => if p == "login" then some respLogin else none

/-- Body fixture for rule-A precedence: a qualifying anchor link, a keyword
occurrence, and a form tag. -/
def linkFormBody : List Char :=
  "<a href=\"/login\">login</a><form action=\"/x\">".toList

/-- Response fixture carrying `linkFormBody` with status 200. -/
def respLink : ProbeResponse :=
  { statusCode := 200, location := "", body := some linkFormBody }

/-- Oracle fixture answering `respLink` on every path. -/
def oracleLink : String → Option ProbeResponse := fun _ => some respLink

/-- Response fixture: status 201 (a 2xx status other than 200) with a
keyword-and-form body. -/
def resp201 : ProbeResponse :=
  { statusCode := 201, location := "", body := some "<form>login</form>".toList }

/-- Oracle fixture answering `resp201` on every path. -/
def oracle201 : String → Option ProbeResponse := fun _ => some resp201

/-- Body fixture of exactly 10001 bytes that contains a keyword and a form. -/
def bigBody : List Char := "<form>login</form>".toList ++ List.replicate 9983 'a'

/-- Response fixture carrying the oversized `bigBody` with status 200. -/
def respBig : ProbeResponse :=
  { statusCode := 200, location := "", body := some bigBody }

/-- Oracle fixture answering `respBig` on every path. -/
def oracleBig : String → Option ProbeResponse := fun _ => some respBig

/-- Oracle fixture in which every probe suffers a transport error. -/
def oracleNone : String → Option ProbeResponse := fun _ => none

/-- The break flag of the body classification is the disjunction of the two
match rules. -/
theorem classifyBody_snd (st : ScanState) (body : List Char) :
    (classifyBody st body).2 =
      ((findMatchingKeyword body != "" && containsForm body) ||
       (containsCreateAccountLinks body && containsForm body)) := by
  unfold classifyBody
  by_cases h1 : (findMatchingKeyword body != "" && containsForm body) = true
  · simp [h1]
  · by_cases h2 : (containsCreateAccountLinks body && containsForm body) = true <;>
      simp [h1, h2]

/-- Whether a path-loop iteration breaks depends only on the response, never
on the accumulated locals. -/
theorem processPath_snd (r : String → Option ProbeResponse) (st : ScanState)
    (path : String) : (processPath r st path).2 = pathBreak r path := by
  unfold processPath pathBreak
  cases hrp : r path with
  | none => rfl
  | some resp =>
    cases hb : resp.body with
    | none =>
      by_cases h3 : 300 ≤ resp.statusCode ∧ resp.statusCode < 400 <;>
        by_cases hs : statusRejected resp.statusCode = true <;>
          simp [h3, hs, hb]
    | some body =>
      by_cases h3 : 300 ≤ resp.statusCode ∧ resp.statusCode < 400 <;>
        by_cases hs : statusRejected resp.statusCode = true <;>
          by_cases hl : 10000 < body.length <;>
            simp [h3, hs, hb, hl, classifyBody_snd]

/-- The trace of probed paths is always an initial segment of the path list:
paths are probed in list order and never revisited. -/
theorem scanPathsT_take_ex (r : String → Option ProbeResponse) (ps : List String) :
    ∀ st, ∃ n, (scanPathsT r ps st).2 = ps.take n := by
  induction ps with
  | nil => exact fun st => ⟨0, rfl⟩
  | cons p ps ih =>
    intro st
    unfold scanPathsT
    by_cases hb : (processPath r st p).2 = true
    · exact ⟨1, by simp [hb]⟩
    · obtain ⟨n, hn⟩ := ih (processPath r st p).1
      exact ⟨n + 1, by simp [hb, hn]⟩

/-- When every probe in the list errors, the loop touches every path once in
order and leaves the locals unchanged. -/
theorem scanPathsT_allError (r : String → Option ProbeResponse) :
    ∀ (ps : List String), (∀ p ∈ ps, r p = none) →
      ∀ st, scanPathsT r ps st = (st, ps) := by
  intro ps
  induction ps with
  | nil => exact fun _ st => rfl
  | cons p ps ih =>
    intro hall st
    have hp : processPath r st p = (st, false) := by
      unfold processPath
      rw [hall p (by simp)]
    have hrest := ih (fun q hq => hall q (by simp [hq]))
    unfold scanPathsT
    simp [hp, hrest st]

/-- If the path at index `i` is the first whose iteration breaks, the loop
probes exactly the paths up to and including index `i`. -/
theorem scanPathsT_first_break (r : String → Option ProbeResponse) :
    ∀ (ps : List String) (st : ScanState) (i : Nat) (hi : i < ps.length),
      pathBreak r ps[i] = true →
      (∀ j, j < i → pathBreak r (ps.getD j "") = false) →
      (scanPathsT r ps st).2 = ps.take (i + 1) := by
  intro ps
  induction ps with
  | nil => intro st i hi; exact absurd hi (by simp)
  | cons p ps ih =>
    intro st i hi hbrk hmin
    cases i with
    | zero =>
      have hp : (processPath r st p).2 = true := by
        rw [processPath_snd]
        simpa using hbrk
      unfold scanPathsT
      simp [hp]
    | succ k =>
      have hp : (processPath r st p).2 = false := by
        rw [processPath_snd]
        simpa using hmin 0 (Nat.succ_pos k)
      unfold scanPathsT
      simp only [hp, Bool.false_eq_true, if_false, List.take_succ_cons]
      rw [ih (processPath r st p).1 k (by simpa using hi) (by simpa using hbrk)
        (fun j hj => by simpa using hmin (j + 1) (Nat.succ_lt_succ hj))]

/-- C6: for every probe oracle, the candidate's paths are probed in the fixed
configured order and the scan stops at the first matching path: if the path
at index `i` matches and no earlier one does, the probed-path trace is
exactly the first `i + 1` configured paths, and no path of index `j > i` is
ever probed. -/
theorem scan_stops_at_first_match (r : String → Option ProbeResponse) (i : Nat)
    (hi : i < createAccountPaths.length)
    (hbrk : pathBreak r createAccountPaths[i] = true)
    (hmin : ∀ j, j < i → pathBreak r (createAccountPaths.getD j "") = false) :
    (scanResult r).2 = createAccountPaths.take (i + 1) ∧
    ∀ j, (hj : j < createAccountPaths.length) → i < j →
      createAccountPaths[j] ∉ (scanResult r).2 := by
  have hres : (scanResult r).2 = createAccountPaths.take (i + 1) :=
    scanPathsT_first_break r createAccountPaths initState i hi hbrk hmin
  refine ⟨hres, ?_⟩
  intro j hj hij hmem
  rw [hres] at hmem
  obtain ⟨k, hk, hkeq⟩ := List.getElem_of_mem hmem
  have hk2 : k < i + 1 := by
    rw [List.length_take] at hk
    omega
  rw [List.getElem_take createAccountPaths] at hkeq
  have hnd : createAccountPaths.Nodup := by decide
  have hkj : k = j := (List.Nodup.getElem_inj_iff hnd).mp hkeq
  omega

/-- C6 witness: under `oracleLogin` the first configured path matches and the
trace is exactly that single path. -/
theorem scan_stops_at_first_match_witness :
    (scanResult oracleLogin).2 = createAccountPaths.take 1 :=
  (scan_stops_at_first_match oracleLogin 0 (by decide) (by decide)
    (fun j hj => absurd hj (Nat.not_lt_zero j))).1

/-- C7: transport errors are recovered locally.  For every oracle the probed
trace is an initial segment of the configured path list whose entries are
pairwise distinct (each failed path is skipped, never retried, and the scan
of the candidate never aborts); and a candidate whose every path probe
errors yields a not-matched verdict after probing all paths once. -/
theorem transport_errors_recovered (r : String → Option ProbeResponse) :
    (∃ n, (scanResult r).2 = createAccountPaths.take n) ∧
    (scanResult r).2.Nodup ∧
    ((∀ p ∈ createAccountPaths, r p = none) →
      checkSubdomain r = false ∧ (scanResult r).2 = createAccountPaths) := by
  obtain ⟨n, hn⟩ := scanPathsT_take_ex r createAccountPaths initState
  have hn2 : (scanResult r).2 = createAccountPaths.take n := hn
  have hnd : createAccountPaths.Nodup := by decide
  refine ⟨⟨n, hn2⟩, ?_, ?_⟩
  · rw [hn2]
    exact hnd.sublist (List.take_sublist n createAccountPaths)
  · intro hall
    have hrun : scanPathsT r createAccountPaths initState =
        (initState, createAccountPaths) := scanPathsT_allError r createAccountPaths hall initState
    constructor
    · unfold checkSubdomain scanResult
      rw [hrun]
      rfl
    · show (scanPathsT r createAccountPaths initState).2 = createAccountPaths
      rw [hrun]

/-- C7 witness: with every probe erroring, the verdict is not-matched and all
eleven paths were each probed exactly once, in order. -/
theorem transport_errors_recovered_witness :
    checkSubdomain oracleNone = false ∧ (scanResult oracleNone).2 = createAccountPaths :=
  (transport_errors_recovered oracleNone).2.2 (fun _ _ => rfl)

/-- C3: a path whose response body exceeds 10000 bytes is treated as a
non-match regardless of the body's content: the iteration does not break and
none of the match-rule outputs (found flag, form flag, matched keyword,
detection method) is touched, showing neither rule was applied. -/
theorem oversized_body_ignored (r : String → Option ProbeResponse)
    (st : ScanState) (path : String) (resp : ProbeResponse) (body : List Char)
    (hr : r path = some resp) (hb : resp.body = some body)
    (hlen : 10000 < body.length) :
    (processPath r st path).2 = false ∧
    (processPath r st path).1.accountPortalFound = st.accountPortalFound ∧
    (processPath r st path).1.hasForm = st.hasForm ∧
    (processPath r st path).1.matchedKeyword = st.matchedKeyword ∧
    (processPath r st path).1.detectionMethod = st.detectionMethod := by
  unfold processPath
  rw [hr]
  by_cases h3 : 300 ≤ resp.statusCode ∧ resp.statusCode < 400 <;>
    by_cases hs : statusRejected resp.statusCode = true <;>
      simp [h3, hs, hb, hlen]

/-- C3 witness: a 10001-byte body that contains both a configured keyword and
a form tag is still ignored, leaving the locals untouched. -/
theorem oversized_body_ignored_witness :
    (processPath oracleBig initState "login").2 = false ∧
    (processPath oracleBig initState "login").1.accountPortalFound = initState.accountPortalFound ∧
    (processPath oracleBig initState "login").1.hasForm = initState.hasForm ∧
    (processPath oracleBig initState "login").1.matchedKeyword = initState.matchedKeyword ∧
    (processPath oracleBig initState "login").1.detectionMethod = initState.detectionMethod :=
  oversized_body_ignored oracleBig initState "login" respBig bigBody rfl rfl
    (by simp only [bigBody, List.length_append, List.length_replicate]; decide)

/-- C4: rule A is evaluated before rule B on every iteration: an accepted,
size-checked body satisfying the keyword rule, the link rule and the form
test classifies with the keyword method, never the link method. -/
theorem ruleA_precedence (r : String → Option ProbeResponse) (st : ScanState)
    (path : String) (resp : ProbeResponse) (body : List Char)
    (hr : r path = some resp) (hs : statusRejected resp.statusCode = false)
    (hb : resp.body = some body) (hlen : body.length ≤ 10000)
    (hkw : findMatchingKeyword body ≠ "")
    ( _hlink : containsCreateAccountLinks body = true)
    (hform : containsForm body = true) :
    (processPath r st path).2 = true ∧
    (processPath r st path).1.detectionMethod = "Keywords in body with form" ∧
    (processPath r st path).1.detectionMethod ≠ "Links or buttons in body with form" := by
  unfold processPath classifyBody
  rw [hr]
  have hlen2 : ¬ (10000 < body.length) := by omega
  have hkwb : (findMatchingKeyword body != "") = true := by
    simpa using hkw
  by_cases h3 : 300 ≤ resp.statusCode ∧ resp.statusCode < 400
  · simp only [h3, if_true, hs, hb, Bool.false_eq_true, if_false, hlen2, hkwb, hform,
      Bool.and_self, Bool.true_and]
    exact ⟨trivial, trivial, by decide⟩
  · simp only [h3, if_false, hs, Bool.false_eq_true, hb, hlen2, hkwb, hform,
      Bool.and_self, Bool.true_and]
    refine ⟨?_, ?_, ?_⟩ <;> simp

/-- C4 witness: a body holding a qualifying anchor link, a keyword and a form
classifies via the keyword method. -/
theorem ruleA_precedence_witness :
    (processPath oracleLink initState "login").2 = true ∧
    (processPath oracleLink initState "login").1.detectionMethod = "Keywords in body with form" ∧
    (processPath oracleLink initState "login").1.detectionMethod ≠ "Links or buttons in body with form" :=
  ruleA_precedence oracleLink initState "login" respLink linkFormBody rfl (by decide)
    rfl (by decide) (by decide) (by decide) (by decide)

set_option maxRecDepth 40000

/-- Helper for C2: over the standard status range, the acceptance test of
line 166 passes exactly for 200 and the 3xx statuses. -/
theorem statusRejected_characterization :
    ∀ c, c < 600 → 100 ≤ c →
      ((statusRejected c = false) ↔ (c = 200 ∨ (300 ≤ c ∧ c < 400))) := by decide

/-- C2 (amended): a response is accepted for body reading and classification
iff its status is exactly 200 or its decimal representation starts with the
digit 3 — over the standard range 100..599 that is: status 200 or a 3xx
status.  In particular 2xx statuses other than 200 are rejected. -/
theorem accept_iff_200_or_3xx (c : Nat) (hc2 : c < 600) (hc1 : 100 ≤ c) :
    (statusRejected c = false) ↔ (c = 200 ∨ (300 ≤ c ∧ c < 400)) :=
  statusRejected_characterization c hc2 hc1

/-- C2 amended-claim witness at the 3xx status 304. -/
theorem accept_iff_200_or_3xx_witness :
    (statusRejected 304 = false) ↔ (304 = 200 ∨ (300 ≤ 304 ∧ 304 < 400)) :=
  accept_iff_200_or_3xx 304 (by decide) (by decide)

/-- C2 counterexample: status 201 is 2xx but is rejected by the status test;
a 201 response whose body contains a configured keyword and a form is still
treated as a non-match and the loop advances with locals untouched. -/
theorem status201_not_accepted :
    (200 ≤ 201 ∧ 201 < 300) ∧
    statusRejected 201 = true ∧
    (processPath oracle201 initState "login").2 = false ∧
    (processPath oracle201 initState "login").1 = initState ∧
    findMatchingKeyword "<form>login</form>".toList ≠ "" ∧
    containsForm "<form>login</form>".toList = true := by decide

/-- C5: the loop of `containsCreateAccountLinks` never consults the button
text capture.  On the body `<button>login</button>` the link pattern yields
exactly one submatch record whose group 3 is the text `login` — which matches
the configured keyword `login` — yet the function returns `false`, because
only groups 1 and 2 (both empty here) are inspected. -/
theorem button_text_never_consulted :
    findAllLinkMatches "<button>login</button>".toList.length "<button>login</button>".toList
      = [⟨[], [], "login".toList⟩] ∧
    findMatchingKeyword "login".toList = "login" ∧
    containsCreateAccountLinks "<button>login</button>".toList = false := by decide

/-- C10 counterexample: the two `containsForm` implementations disagree on
the body `<form` (no closing `>`): the literal-substring variant accepts it,
the regex variant does not. -/
theorem formRegex_vs_literal_diverge :
    containsFormV2 "<form".toList = true ∧ containsForm "<form".toList = false := by decide

/-- C10 (amended): the regex variant implies the literal variant — every body
matched by `<form[^>]*>` contains the literal `<form` — but not conversely. -/
theorem containsForm_implies_literal (body : List Char)
    (h : containsForm body = true) : containsFormV2 body = true := by
  induction body with
  | nil => simp [containsForm] at h
  | cons c rest ih =>
    simp only [containsForm, Bool.or_eq_true] at h
    rcases h with hf | hr
    · simp only [formAt, Bool.and_eq_true] at hf
      simp only [containsFormV2, containsSub, Bool.or_eq_true]
      exact Or.inl hf.1
    · have h2 : containsSub rest "<form".toList = true := by
        simpa only [containsFormV2] using ih hr
      simp only [containsFormV2, containsSub, Bool.or_eq_true]
      exact Or.inr h2

/-- C10 amended-claim witness at the body `<form>`. -/
theorem containsForm_implies_literal_witness :
    containsFormV2 "<form>".toList = true :=
  containsForm_implies_literal "<form>".toList (by decide)

/-- C1: the unsynchronized slice append of `main` (line 67) can lose a
matched candidate.  With two candidates whose verdicts are both matched,
the schedule `schedLostAppend` drives both goroutines to completion (both
program counters reach the end and the completed-count reaches 2), yet the
final outcome set is `[1]`: the matched candidate 0 is missing, so the
outcome set does not contain exactly the matched candidates. -/
theorem lost_append_run :
    (run [true, true] schedLostAppend).pcs = [7, 7] ∧
    (run [true, true] schedLostAppend).progress = 2 ∧
    (run [true, true] schedLostAppend).outcome = [1] ∧
    (run [true, true] schedLostAppend).outcome.contains 0 = false := by decide

/-- C8: the progress value is read and sent outside the mutex (line 75), so
delivery order is not the increment order.  Under `schedLateSend` both
goroutines complete, yet the reporter receives the sequence `[2, 1]`, which
is decreasing and terminates at 1 instead of the total 2. -/
theorem progress_sequence_out_of_order :
    (run [false, false] schedLateSend).pcs = [5, 5] ∧
    (run [false, false] schedLateSend).delivered = [2, 1] := by decide

/-- C9 counterexample: not every mutation of the shared outcome set, progress
counter and output sink passes through the mutex: the matched-candidate
goroutine bodies of both variants contain an unguarded shared mutation. -/
theorem mutations_not_all_guarded :
    mutationsGuarded workerProgMatched = false ∧
    mutationsGuarded workerProgMatchedV2 = false := by decide

/-- C9 (amended): in the goroutine bodies, the progress-counter increment is
the only shared mutation that executes under the mutex; the outcome-set
append (first variant) and the output-sink write (second variant) execute
with the mutex not held. -/
theorem counter_guarded_append_unguarded :
    ((annotateGuard workerProgMatched false).all
        fun ab => !(ab.1 == Action.incProgress) || ab.2) = true ∧
    (annotateGuard workerProgMatched false).contains (Action.incProgress, true) = true ∧
    (annotateGuard workerProgMatched false).contains (Action.writeOutcome, false) = true ∧
    (annotateGuard workerProgMatchedV2 false).contains (Action.writeSink, false) = true ∧
    mutationsGuarded workerProgUnmatched = true := by decide

end PortalFinder
